import Mathlib

/-!
Verification of the FlowCatalyst Python SDK
(`clients/python/flowcatalyst-sdk/flowcatalyst/`).

The SDK is a thin client facade over an HTTP/JSON API.  We embed it
shallowly:

* JSON documents become the inductive `Json` (numbers as `Int`; the mocked
  payloads in scope use only integers).
* The pydantic record models (`types.py`) become Lean structures together
  with parsing functions `parseEventType`, `parseSubscription`,
  `parseDispatchJob`.  Pydantic raises `ValidationError` on a wrong-typed
  or missing required field and on a `Literal` value outside the allowed
  set; calling `Model(**item)` on a non-mapping raises `TypeError`.  Both
  are constructors of `SdkError`.
* The `requests` session becomes an explicit `Backend` oracle, a function
  from `HttpRequest` to `HttpResponse`; redirect resolution, if any, is
  folded into the oracle, so the oracle's answer is the response the
  executor receives.  `Response.raise_for_status` raises exactly for
  status codes in `[400, 600)` and is embedded as `raiseForStatus`.
* `FlowCatalystClient.__init__` becomes `FlowCatalystClient.init` (with
  `initDefault` mirroring Python's defaults `api_key=None`, `timeout=30`);
  the private `_request` is split into the pure request builder
  `buildRequest` and the executor `FlowCatalystClient.request`.
-/

namespace FlowCatalyst

/-- JSON values.  Object fields are an association list; Python dicts have
unique keys, so lookups take the first binding. -/
inductive Json where
  | null : Json
  | bool : Bool → Json
  | num : Int → Json
  | str : String → Json
  | arr : List Json → Json
  | obj : List (String × Json) → Json
deriving Repr

/-- First binding of `key` in a JSON object's field list (Python dict access). -/
def lookupField (fields : List (String × Json)) (key : String) : Option Json :=
  match fields with
  | [] => none
  | (k, v) :: rest => if k = key then some v else lookupField rest key

/-- Errors observable through the SDK:
`validationError` is pydantic's `ValidationError`,
`httpError` is `requests.HTTPError` raised by `raise_for_status`
(carrying the response's status code and body),
`typeError` is Python's `TypeError` (e.g. `Model(**x)` on a non-mapping). -/
inductive SdkError where
  | validationError : String → SdkError
  | httpError : Nat → Json → SdkError
  | typeError : String → SdkError
deriving Repr

/-- A timestamp field value.  Pydantic's `datetime` accepts ISO strings and
numeric epochs; we keep the raw JSON value it was parsed from. -/
structure DateTime where
  raw : Json
deriving Repr

/-- `EventType` record (`types.py`): `id`, `name`, `version` strings, a
`schema` JSON object, a `created_at` timestamp. -/
structure EventType where
  id : String
  name : String
  version : String
  schema : List (String × Json)
  created_at : DateTime
deriving Repr

/-- The closed status set of `Subscription` (`Literal["active", "paused", "failed"]`). -/
def subscriptionStatuses : List String := ["active", "paused", "failed"]

/-- `Subscription` record (`types.py`). -/
structure Subscription where
  id : String
  event_type_id : String
  endpoint : String
  status : String
  created_at : DateTime
deriving Repr

/-- The closed status set of `DispatchJob`
(`Literal["pending", "processing", "completed", "failed"]`). -/
def dispatchJobStatuses : List String := ["pending", "processing", "completed", "failed"]

/-- `DispatchJob` record (`types.py`); `completed_at` is `Optional` with
default `None`. -/
structure DispatchJob where
  id : String
  event_id : String
  subscription_id : String
  status : String
  attempts : Int
  created_at : DateTime
  completed_at : Option DateTime
deriving Repr

/-- Decode a required string field. -/
def decStr (fields : List (String × Json)) (key : String) : Except String String :=
  match lookupField fields key with
  | some (Json.str s) => Except.ok s
  | some _ => Except.error (key ++ ": string required")
  | none => Except.error (key ++ ": field required")

/-- Decode a required `Dict[str, Any]` field. -/
def decObj (fields : List (String × Json)) (key : String) :
    Except String (List (String × Json)) :=
  match lookupField fields key with
  | some (Json.obj o) => Except.ok o
  | some _ => Except.error (key ++ ": mapping required")
  | none => Except.error (key ++ ": field required")

/-- Decode a required `int` field. -/
def decInt (fields : List (String × Json)) (key : String) : Except String Int :=
  match lookupField fields key with
  | some (Json.num n) => Except.ok n
  | some _ => Except.error (key ++ ": integer required")
  | none => Except.error (key ++ ": field required")

/-- Decode a required `datetime` field: pydantic accepts ISO strings and
numeric epochs, and rejects other JSON shapes. -/
def decDatetime (fields : List (String × Json)) (key : String) : Except String DateTime :=
  match lookupField fields key with
  | some (Json.str s) => Except.ok ⟨Json.str s⟩
  | some (Json.num n) => Except.ok ⟨Json.num n⟩
  | some _ => Except.error (key ++ ": datetime required")
  | none => Except.error (key ++ ": field required")

/-- Decode an `Optional[datetime] = None` field: missing or `null` is
`none`; otherwise the value must be a datetime. -/
def decOptDatetime (fields : List (String × Json)) (key : String) :
    Except String (Option DateTime) :=
  match lookupField fields key with
  | none => Except.ok none
  | some Json.null => Except.ok none
  | some (Json.str s) => Except.ok (some ⟨Json.str s⟩)
  | some (Json.num n) => Except.ok (some ⟨Json.num n⟩)
  | some _ => Except.error (key ++ ": datetime required")

/-- Decode a `Literal[...]` field: a string drawn from the allowed set. -/
def decLiteral (fields : List (String × Json)) (key : String) (allowed : List String) :
    Except String String :=
  match lookupField fields key with
  | some (Json.str s) =>
      if s ∈ allowed then Except.ok s
      else Except.error (key ++ ": value not permitted")
  | some _ => Except.error (key ++ ": string required")
  | none => Except.error (key ++ ": field required")

/-- Field-level validation of `EventType(**fields)`; extra fields are
ignored (pydantic's default). -/
def parseEventTypeFields (fields : List (String × Json)) : Except String EventType := do
  let id ← decStr fields "id"
  let name ← decStr fields "name"
  let version ← decStr fields "version"
  let schema ← decObj fields "schema"
  let created_at ← decDatetime fields "created_at"
  Except.ok { id := id, name := name, version := version, schema := schema,
              created_at := created_at }

/-- `EventType(**item)`: a non-mapping raises `TypeError`; a mapping is
validated by pydantic, failing with `ValidationError` on a shape mismatch. -/
def parseEventType : Json → Except SdkError EventType
  | Json.obj fields =>
      match parseEventTypeFields fields with
      | Except.ok r => Except.ok r
      | Except.error m => Except.error (SdkError.validationError m)
  | _ => Except.error (SdkError.typeError "EventType: mapping required")

/-- Field-level validation of `Subscription(**fields)`. -/
def parseSubscriptionFields (fields : List (String × Json)) : Except String Subscription := do
  let id ← decStr fields "id"
  let event_type_id ← decStr fields "event_type_id"
  let endpoint ← decStr fields "endpoint"
  let status ← decLiteral fields "status" subscriptionStatuses
  let created_at ← decDatetime fields "created_at"
  Except.ok { id := id, event_type_id := event_type_id, endpoint := endpoint,
              status := status, created_at := created_at }

/-- `Subscription(**item)`. -/
def parseSubscription : Json → Except SdkError Subscription
  | Json.obj fields =>
      match parseSubscriptionFields fields with
      | Except.ok r => Except.ok r
      | Except.error m => Except.error (SdkError.validationError m)
  | _ => Except.error (SdkError.typeError "Subscription: mapping required")

/-- Field-level validation of `DispatchJob(**fields)`. -/
def parseDispatchJobFields (fields : List (String × Json)) : Except String DispatchJob := do
  let id ← decStr fields "id"
  let event_id ← decStr fields "event_id"
  let subscription_id ← decStr fields "subscription_id"
  let status ← decLiteral fields "status" dispatchJobStatuses
  let attempts ← decInt fields "attempts"
  let created_at ← decDatetime fields "created_at"
  let completed_at ← decOptDatetime fields "completed_at"
  Except.ok { id := id, event_id := event_id, subscription_id := subscription_id,
              status := status, attempts := attempts, created_at := created_at,
              completed_at := completed_at }

/-- `DispatchJob(**item)`. -/
def parseDispatchJob : Json → Except SdkError DispatchJob
  | Json.obj fields =>
      match parseDispatchJobFields fields with
      | Except.ok r => Except.ok r
      | Except.error m => Except.error (SdkError.validationError m)
  | _ => Except.error (SdkError.typeError "DispatchJob: mapping required")

/-- Python's `str.rstrip("/")` on the character list: drop every trailing
slash. -/
def rstripSlashChars (cs : List Char) : List Char :=
  ((cs.reverse).dropWhile (fun c => c = '/')).reverse

/-- `base_url.rstrip("/")`. -/
def pyRstripSlash (s : String) : String :=
  String.mk (rstripSlashChars s.data)

/-- An outgoing HTTP request as assembled by the session:
method, full URL, the session's headers, the timeout bound passed to
`session.request`, and the optional JSON payload. -/
structure HttpRequest where
  method : String
  url : String
  headers : List (String × String)
  timeout : Nat
  body : Option Json
deriving Repr

/-- An HTTP response as received by the executor: status code and body
(the body as the JSON document `response.json()` would decode). -/
structure HttpResponse where
  status : Nat
  body : Json
deriving Repr

/-- The network, as an oracle: what response each request receives. -/
def Backend : Type := HttpRequest → HttpResponse

/-- `requests.Response.raise_for_status`: raises `HTTPError` exactly when
the status code lies in `[400, 500)` (client error) or `[500, 600)`
(server error); any other status returns normally. -/
def raiseForStatus (r : HttpResponse) : Except SdkError Unit :=
  if 400 ≤ r.status ∧ r.status < 600 then
    Except.error (SdkError.httpError r.status r.body)
  else
    Except.ok ()

/-- The client's state after `__init__`: stripped base URL, the stored key
and timeout, and the session's default headers. -/
structure FlowCatalystClient where
  base_url : String
  api_key : Option String
  timeout : Nat
  sessionHeaders : List (String × String)
deriving Repr

/-- `FlowCatalystClient.__init__`: strips trailing slashes from the base
URL once, stores key and timeout, and — only when `api_key` is truthy
(Python's `if api_key:` is false for `None` and for the empty string) —
installs the `Authorization: Bearer <api_key>` header on the session. -/
def FlowCatalystClient.init (base_url : String) (api_key : Option String)
    (timeout : Nat) : FlowCatalystClient :=
  { base_url := pyRstripSlash base_url
    api_key := api_key
    timeout := timeout
    sessionHeaders :=
      match api_key with
      | some k => if k = "" then [] else [("Authorization", "Bearer " ++ k)]
      | none => [] }

/-- `__init__` with Python's default arguments `api_key=None`, `timeout=30`. -/
def FlowCatalystClient.initDefault (base_url : String) : FlowCatalystClient :=
  FlowCatalystClient.init base_url none 30

/-- The request `_request` hands to `session.request`: URL is
`f"{self.base_url}{path}"`, headers are the session's, timeout is the
configured one. -/
def FlowCatalystClient.buildRequest (c : FlowCatalystClient) (method path : String)
    (body : Option Json) : HttpRequest :=
  { method := method
    url := c.base_url ++ path
    headers := c.sessionHeaders
    timeout := c.timeout
    body := body }

/-- `_request`: build the request, perform the call, `raise_for_status`,
then return the decoded JSON body. -/
def FlowCatalystClient.request (c : FlowCatalystClient) (backend : Backend)
    (method path : String) (body : Option Json) : Except SdkError Json :=
  let resp := backend (c.buildRequest method path body)
  match raiseForStatus resp with
  | Except.error e => Except.error e
  | Except.ok _ => Except.ok resp.body

/-- `get_event_types`: iterate the JSON body, constructing an `EventType`
per element.  Iterating a non-array (Python: a dict yields its keys, a
scalar is not iterable / not a mapping) fails with `TypeError`; note the
comprehension aborts on the first failing element. -/
def FlowCatalystClient.getEventTypes (c : FlowCatalystClient) (backend : Backend) :
    Except SdkError (List EventType) :=
  match c.request backend "GET" "/api/event-types" none with
  | Except.error e => Except.error e
  | Except.ok (Json.arr items) => items.mapM parseEventType
  | Except.ok _ => Except.error (SdkError.typeError "iteration over a non-list response")

/-- `get_event_type(event_type_id)`. -/
def FlowCatalystClient.getEventType (c : FlowCatalystClient) (backend : Backend)
    (event_type_id : String) : Except SdkError EventType :=
  match c.request backend "GET" ("/api/event-types/" ++ event_type_id) none with
  | Except.error e => Except.error e
  | Except.ok j => parseEventType j

/-- `create_event_type(name, version, schema)`. -/
def FlowCatalystClient.createEventType (c : FlowCatalystClient) (backend : Backend)
    (name version : String) (schema : List (String × Json)) : Except SdkError EventType :=
  let payload := Json.obj [("name", Json.str name), ("version", Json.str version),
                           ("schema", Json.obj schema)]
  match c.request backend "POST" "/api/event-types" (some payload) with
  | Except.error e => Except.error e
  | Except.ok j => parseEventType j

/-- `get_subscriptions`. -/
def FlowCatalystClient.getSubscriptions (c : FlowCatalystClient) (backend : Backend) :
    Except SdkError (List Subscription) :=
  match c.request backend "GET" "/api/subscriptions" none with
  | Except.error e => Except.error e
  | Except.ok (Json.arr items) => items.mapM parseSubscription
  | Except.ok _ => Except.error (SdkError.typeError "iteration over a non-list response")

/-- `get_subscription(subscription_id)`. -/
def FlowCatalystClient.getSubscription (c : FlowCatalystClient) (backend : Backend)
    (subscription_id : String) : Except SdkError Subscription :=
  match c.request backend "GET" ("/api/subscriptions/" ++ subscription_id) none with
  | Except.error e => Except.error e
  | Except.ok j => parseSubscription j

/-- The JSON payload `create_subscription` posts. -/
def createSubscriptionPayload (event_type_id endpoint status : String) : Json :=
  Json.obj [("event_type_id", Json.str event_type_id),
            ("endpoint", Json.str endpoint),
            ("status", Json.str status)]

/-- `create_subscription(event_type_id, endpoint, status)`. -/
def FlowCatalystClient.createSubscription (c : FlowCatalystClient) (backend : Backend)
    (event_type_id endpoint status : String) : Except SdkError Subscription :=
  match c.request backend "POST" "/api/subscriptions"
      (some (createSubscriptionPayload event_type_id endpoint status)) with
  | Except.error e => Except.error e
  | Except.ok j => parseSubscription j

/-- `create_subscription` with Python's default argument `status="active"`. -/
def FlowCatalystClient.createSubscriptionDefault (c : FlowCatalystClient)
    (backend : Backend) (event_type_id endpoint : String) : Except SdkError Subscription :=
  c.createSubscription backend event_type_id endpoint "active"

/-- `get_dispatch_jobs`. -/
def FlowCatalystClient.getDispatchJobs (c : FlowCatalystClient) (backend : Backend) :
    Except SdkError (List DispatchJob) :=
  match c.request backend "GET" "/api/dispatch-jobs" none with
  | Except.error e => Except.error e
  | Except.ok (Json.arr items) => items.mapM parseDispatchJob
  | Except.ok _ => Except.error (SdkError.typeError "iteration over a non-list response")

/-- `get_dispatch_job(job_id)`. -/
def FlowCatalystClient.getDispatchJob (c : FlowCatalystClient) (backend : Backend)
    (job_id : String) : Except SdkError DispatchJob :=
  match c.request backend "GET" ("/api/dispatch-jobs/" ++ job_id) none with
  | Except.error e => Except.error e
  | Except.ok j => parseDispatchJob j

/-! ### Decoder soundness -/

theorem decStr_ok {f : List (String × Json)} {k s : String}
    (h : decStr f k = Except.ok s) : lookupField f k = some (Json.str s) := by
  unfold decStr at h
  split at h <;> simp_all

theorem decObj_ok {f : List (String × Json)} {k : String} {o : List (String × Json)}
    (h : decObj f k = Except.ok o) : lookupField f k = some (Json.obj o) := by
  unfold decObj at h
  split at h <;> simp_all

theorem decInt_ok {f : List (String × Json)} {k : String} {n : Int}
    (h : decInt f k = Except.ok n) : lookupField f k = some (Json.num n) := by
  unfold decInt at h
  split at h <;> simp_all

theorem decDatetime_ok {f : List (String × Json)} {k : String} {d : DateTime}
    (h : decDatetime f k = Except.ok d) : lookupField f k = some d.raw := by
  unfold decDatetime at h
  split at h <;> simp_all <;> subst h <;> rfl

theorem decLiteral_ok {f : List (String × Json)} {k : String} {allowed : List String}
    {s : String} (h : decLiteral f k allowed = Except.ok s) :
    lookupField f k = some (Json.str s) ∧ s ∈ allowed := by
  unfold decLiteral at h
  split at h <;> simp_all
  split at h <;> simp_all

theorem decOptDatetime_ok {f : List (String × Json)} {k : String} {o : Option DateTime}
    (h : decOptDatetime f k = Except.ok o) :
    (o = none ∧ (lookupField f k = none ∨ lookupField f k = some Json.null)) ∨
      (∃ v, lookupField f k = some v ∧ v ≠ Json.null ∧ o = some ⟨v⟩) := by
  unfold decOptDatetime at h
  split at h <;> simp_all

/-! ### Parser soundness -/

theorem parseEventTypeFields_ok {f : List (String × Json)} {et : EventType}
    (h : parseEventTypeFields f = Except.ok et) :
    lookupField f "id" = some (Json.str et.id) ∧
    lookupField f "name" = some (Json.str et.name) ∧
    lookupField f "version" = some (Json.str et.version) ∧
    lookupField f "schema" = some (Json.obj et.schema) ∧
    lookupField f "created_at" = some et.created_at.raw := by
  unfold parseEventTypeFields at h
  cases h1 : decStr f "id" with
  | error m => rw [h1] at h; simp [Bind.bind, Except.bind] at h
  | ok v1 =>
  rw [h1] at h
  cases h2 : decStr f "name" with
  | error m => rw [h2] at h; simp [Bind.bind, Except.bind] at h
  | ok v2 =>
  rw [h2] at h
  cases h3 : decStr f "version" with
  | error m => rw [h3] at h; simp [Bind.bind, Except.bind] at h
  | ok v3 =>
  rw [h3] at h
  cases h4 : decObj f "schema" with
  | error m => rw [h4] at h; simp [Bind.bind, Except.bind] at h
  | ok v4 =>
  rw [h4] at h
  cases h5 : decDatetime f "created_at" with
  | error m => rw [h5] at h; simp [Bind.bind, Except.bind] at h
  | ok v5 =>
  rw [h5] at h
  simp [Bind.bind, Except.bind] at h
  subst h
  exact ⟨decStr_ok h1, decStr_ok h2, decStr_ok h3, decObj_ok h4, decDatetime_ok h5⟩

theorem parseSubscriptionFields_ok {f : List (String × Json)} {sub : Subscription}
    (h : parseSubscriptionFields f = Except.ok sub) :
    lookupField f "id" = some (Json.str sub.id) ∧
    lookupField f "event_type_id" = some (Json.str sub.event_type_id) ∧
    lookupField f "endpoint" = some (Json.str sub.endpoint) ∧
    lookupField f "status" = some (Json.str sub.status) ∧
    sub.status ∈ subscriptionStatuses ∧
    lookupField f "created_at" = some sub.created_at.raw := by
  unfold parseSubscriptionFields at h
  cases h1 : decStr f "id" with
  | error m => rw [h1] at h; simp [Bind.bind, Except.bind] at h
  | ok v1 =>
  rw [h1] at h
  cases h2 : decStr f "event_type_id" with
  | error m => rw [h2] at h; simp [Bind.bind, Except.bind] at h
  | ok v2 =>
  rw [h2] at h
  cases h3 : decStr f "endpoint" with
  | error m => rw [h3] at h; simp [Bind.bind, Except.bind] at h
  | ok v3 =>
  rw [h3] at h
  cases h4 : decLiteral f "status" subscriptionStatuses with
  | error m => rw [h4] at h; simp [Bind.bind, Except.bind] at h
  | ok v4 =>
  rw [h4] at h
  cases h5 : decDatetime f "created_at" with
  | error m => rw [h5] at h; simp [Bind.bind, Except.bind] at h
  | ok v5 =>
  rw [h5] at h
  simp [Bind.bind, Except.bind] at h
  subst h
  exact ⟨decStr_ok h1, decStr_ok h2, decStr_ok h3, (decLiteral_ok h4).1,
    (decLiteral_ok h4).2, decDatetime_ok h5⟩

theorem parseDispatchJobFields_ok {f : List (String × Json)} {job : DispatchJob}
    (h : parseDispatchJobFields f = Except.ok job) :
    lookupField f "id" = some (Json.str job.id) ∧
    lookupField f "event_id" = some (Json.str job.event_id) ∧
    lookupField f "subscription_id" = some (Json.str job.subscription_id) ∧
    lookupField f "status" = some (Json.str job.status) ∧
    job.status ∈ dispatchJobStatuses ∧
    lookupField f "attempts" = some (Json.num job.attempts) ∧
    lookupField f "created_at" = some job.created_at.raw ∧
    ((job.completed_at = none ∧
        (lookupField f "completed_at" = none ∨
         lookupField f "completed_at" = some Json.null)) ∨
      (∃ v, lookupField f "completed_at" = some v ∧ v ≠ Json.null ∧
        job.completed_at = some ⟨v⟩)) := by
  unfold parseDispatchJobFields at h
  cases h1 : decStr f "id" with
  | error m => rw [h1] at h; simp [Bind.bind, Except.bind] at h
  | ok v1 =>
  rw [h1] at h
  cases h2 : decStr f "event_id" with
  | error m => rw [h2] at h; simp [Bind.bind, Except.bind] at h
  | ok v2 =>
  rw [h2] at h
  cases h3 : decStr f "subscription_id" with
  | error m => rw [h3] at h; simp [Bind.bind, Except.bind] at h
  | ok v3 =>
  rw [h3] at h
  cases h4 : decLiteral f "status" dispatchJobStatuses with
  | error m => rw [h4] at h; simp [Bind.bind, Except.bind] at h
  | ok v4 =>
  rw [h4] at h
  cases h5 : decInt f "attempts" with
  | error m => rw [h5] at h; simp [Bind.bind, Except.bind] at h
  | ok v5 =>
  rw [h5] at h
  cases h6 : decDatetime f "created_at" with
  | error m => rw [h6] at h; simp [Bind.bind, Except.bind] at h
  | ok v6 =>
  rw [h6] at h
  cases h7 : decOptDatetime f "completed_at" with
  | error m => rw [h7] at h; simp [Bind.bind, Except.bind] at h
  | ok v7 =>
  rw [h7] at h
  simp [Bind.bind, Except.bind] at h
  subst h
  exact ⟨decStr_ok h1, decStr_ok h2, decStr_ok h3, (decLiteral_ok h4).1,
    (decLiteral_ok h4).2, decInt_ok h5, decDatetime_ok h6, decOptDatetime_ok h7⟩

/-- On a JSON object, a failed `Subscription` construction is always a
`ValidationError` (pydantic), never any other error kind. -/
theorem parseSubscription_obj_error {f : List (String × Json)} {e : SdkError}
    (h : parseSubscription (Json.obj f) = Except.error e) :
    ∃ m, e = SdkError.validationError m := by
  simp only [parseSubscription] at h
  cases hp : parseSubscriptionFields f with
  | error m => rw [hp] at h; simp at h; exact ⟨m, h.symm⟩
  | ok r => rw [hp] at h; simp at h

/-- Same for `EventType`. -/
theorem parseEventType_obj_error {f : List (String × Json)} {e : SdkError}
    (h : parseEventType (Json.obj f) = Except.error e) :
    ∃ m, e = SdkError.validationError m := by
  simp only [parseEventType] at h
  cases hp : parseEventTypeFields f with
  | error m => rw [hp] at h; simp at h; exact ⟨m, h.symm⟩
  | ok r => rw [hp] at h; simp at h

/-- Same for `DispatchJob`. -/
theorem parseDispatchJob_obj_error {f : List (String × Json)} {e : SdkError}
    (h : parseDispatchJob (Json.obj f) = Except.error e) :
    ∃ m, e = SdkError.validationError m := by
  simp only [parseDispatchJob] at h
  cases hp : parseDispatchJobFields f with
  | error m => rw [hp] at h; simp at h; exact ⟨m, h.symm⟩
  | ok r => rw [hp] at h; simp at h

/-! ### List comprehension (`mapM`) facts -/

theorem mapM_ok_spec {ε α β : Type} {p : α → Except ε β} :
    ∀ {xs : List α} {ys : List β}, xs.mapM p = Except.ok ys →
      ys.length = xs.length ∧
      ∀ i (h : i < xs.length) (h2 : i < ys.length),
        p (xs.get ⟨i, h⟩) = Except.ok (ys.get ⟨i, h2⟩) := by
  intro xs
  induction xs with
  | nil =>
      intro ys h
      simp only [List.mapM_nil] at h
      cases h
      exact ⟨rfl, by intro i hi _; exact absurd hi (by simp)⟩
  | cons x xs ih =>
      intro ys h
      rw [List.mapM_cons] at h
      cases hx : p x with
      | error e => rw [hx] at h; simp [Bind.bind, Except.bind] at h
      | ok y =>
        rw [hx] at h
        cases hxs : xs.mapM p with
        | error e => rw [hxs] at h; simp [Bind.bind, Except.bind] at h
        | ok ys2 =>
          rw [hxs] at h
          simp only [Bind.bind, Except.bind, Pure.pure, Except.pure] at h
          cases h
          obtain ⟨hlen, hpt⟩ := ih hxs
          refine ⟨by simp [hlen], ?_⟩
          intro i hi hi2
          cases i with
          | zero => simpa using hx
          | succ n =>
              exact hpt n (by simpa using hi) (by simpa using hi2)

/-- If every element of the array is a JSON object and some element fails
to validate, the whole comprehension fails with the (first) element's
`ValidationError`. -/
theorem mapM_error_validation {β : Type} {p : Json → Except SdkError β}
    (hp : ∀ g e, p (Json.obj g) = Except.error e → ∃ m, e = SdkError.validationError m) :
    ∀ {xs : List Json},
      (∀ x ∈ xs, ∃ g, x = Json.obj g) →
      (∃ x ∈ xs, ∃ e, p x = Except.error e) →
      ∃ m, xs.mapM p = Except.error (SdkError.validationError m) := by
  intro xs
  induction xs with
  | nil =>
      intro _ hbad
      obtain ⟨x, hx, -⟩ := hbad
      exact absurd hx (by simp)
  | cons x xs ih =>
      intro hobj hbad
      cases hx : p x with
      | error e =>
          obtain ⟨g, hg⟩ := hobj x (by simp)
          subst hg
          obtain ⟨m, hm⟩ := hp g e hx
          subst hm
          refine ⟨m, ?_⟩
          rw [List.mapM_cons, hx]
          simp [Bind.bind, Except.bind]
      | ok y =>
          have hbad2 : ∃ z ∈ xs, ∃ e, p z = Except.error e := by
            obtain ⟨z, hz, e, he⟩ := hbad
            rcases List.mem_cons.mp hz with hz1 | hz2
            · subst hz1; rw [hx] at he; cases he
            · exact ⟨z, hz2, e, he⟩
          obtain ⟨m, hm⟩ := ih (fun z hz => hobj z (List.mem_cons_of_mem _ hz)) hbad2
          refine ⟨m, ?_⟩
          rw [List.mapM_cons, hx, hm]
          simp [Bind.bind, Except.bind]

/-- Whether a result is a pydantic `ValidationError` failure. -/
def resultIsValidationError {α : Type} : Except SdkError α → Bool
  | Except.error (SdkError.validationError _) => true
  | _ => false

/-- A failed field validation of a JSON object yields no record at all. -/
theorem parseSubscription_error_of_no_ok {f : List (String × Json)}
    (hno : ∀ sub, parseSubscriptionFields f ≠ Except.ok sub) :
    ∃ m, parseSubscription (Json.obj f) = Except.error (SdkError.validationError m) := by
  cases hp : parseSubscriptionFields f with
  | error m => exact ⟨m, by simp [parseSubscription, hp]⟩
  | ok sub => exact absurd hp (hno sub)

/-! ### Claims -/

/-- C1, counterexample: the claim says every non-2xx response fails with an
`HttpError`, but `raise_for_status` only raises for status codes in
`[400, 600)`.  A 304 response — non-2xx and returned as-is by `requests`
(304 is not a redirect it follows) — is treated as success and its body is
returned parsed, not as an error. -/
theorem c1_non2xx_not_always_error :
    (304 < 200 ∨ 300 ≤ 304) ∧
    FlowCatalystClient.request (FlowCatalystClient.initDefault "http://h")
        (fun _ => ⟨304, Json.obj [("cached", Json.bool true)]⟩)
        "GET" "/api/event-types" none
      = Except.ok (Json.obj [("cached", Json.bool true)]) := by
  exact ⟨Or.inr (by omega), rfl⟩

/-- C1, amended: the executor fails with an `HttpError` carrying the status
code and response body exactly when the status code is 4xx or 5xx (the
range `raise_for_status` raises on); any other status, including non-2xx
ones such as 304, is treated as success and the JSON body is returned.
The error is propagated unchanged to the caller — shown here through the
`get_event_types` and `get_dispatch_job` facade methods, which perform no
retry or recovery. -/
theorem c1_httpError_range :
    (∀ (c : FlowCatalystClient) (backend : Backend) (method path : String)
       (body : Option Json) (s : Nat) (bod : Json),
       backend (c.buildRequest method path body) = ⟨s, bod⟩ →
       (400 ≤ s → s < 600 →
          c.request backend method path body
            = Except.error (SdkError.httpError s bod)) ∧
       (s < 400 ∨ 600 ≤ s → c.request backend method path body = Except.ok bod)) ∧
    (∀ (c : FlowCatalystClient) (backend : Backend) (s : Nat) (bod : Json),
       400 ≤ s → s < 600 →
       backend (c.buildRequest "GET" "/api/event-types" none) = ⟨s, bod⟩ →
       c.getEventTypes backend = Except.error (SdkError.httpError s bod)) ∧
    (∀ (c : FlowCatalystClient) (backend : Backend) (job_id : String) (s : Nat) (bod : Json),
       400 ≤ s → s < 600 →
       backend (c.buildRequest "GET" ("/api/dispatch-jobs/" ++ job_id) none) = ⟨s, bod⟩ →
       c.getDispatchJob backend job_id = Except.error (SdkError.httpError s bod)) := by
  have hreq : ∀ (c : FlowCatalystClient) (backend : Backend) (method path : String)
      (body : Option Json) (s : Nat) (bod : Json),
      backend (c.buildRequest method path body) = ⟨s, bod⟩ →
      (400 ≤ s → s < 600 →
         c.request backend method path body = Except.error (SdkError.httpError s bod)) ∧
      (s < 400 ∨ 600 ≤ s → c.request backend method path body = Except.ok bod) := by
    intro c backend method path body s bod hb
    unfold FlowCatalystClient.request raiseForStatus
    rw [hb]
    constructor
    · intro h1 h2
      have hc : 400 ≤ s ∧ s < 600 := ⟨h1, h2⟩
      simp [hc]
    · intro h
      have hc : ¬(400 ≤ s ∧ s < 600) := by omega
      simp [hc]
  refine ⟨hreq, ?_, ?_⟩
  · intro c backend s bod h1 h2 hb
    unfold FlowCatalystClient.getEventTypes
    rw [(hreq c backend "GET" "/api/event-types" none s bod hb).1 h1 h2]
  · intro c backend job_id s bod h1 h2 hb
    unfold FlowCatalystClient.getDispatchJob
    rw [(hreq c backend "GET" ("/api/dispatch-jobs/" ++ job_id) none s bod hb).1 h1 h2]

/-- C1 witness: the amended theorem applied at status 404 (error case),
status 200 (success case), and a facade method at status 500. -/
theorem c1_httpError_range_witness :
    FlowCatalystClient.request (FlowCatalystClient.initDefault "http://h")
        (fun _ => ⟨404, Json.str "missing"⟩) "GET" "/p" none
      = Except.error (SdkError.httpError 404 (Json.str "missing")) ∧
    FlowCatalystClient.request (FlowCatalystClient.initDefault "http://h")
        (fun _ => ⟨200, Json.str "fine"⟩) "GET" "/p" none
      = Except.ok (Json.str "fine") ∧
    FlowCatalystClient.getEventTypes (FlowCatalystClient.initDefault "http://h")
        (fun _ => ⟨500, Json.str "boom"⟩)
      = Except.error (SdkError.httpError 500 (Json.str "boom")) :=
  ⟨(c1_httpError_range.1 _ _ "GET" "/p" none 404 _ rfl).1 (by omega) (by omega),
   (c1_httpError_range.1 _ _ "GET" "/p" none 200 _ rfl).2 (Or.inl (by omega)),
   c1_httpError_range.2.1 _ _ 500 _ (by omega) (by omega) rfl⟩

/-- C6: when the backend answers 404 for `GET /api/subscriptions/{id}`,
`get_subscription(id)` fails with an `HttpError` carrying status 404 and
the response body; the method makes the call unconditionally (no local
existence check) for every identifier. -/
theorem c6_getSubscription_404 (c : FlowCatalystClient) (backend : Backend)
    (subscription_id : String) (bod : Json)
    (hb : backend (c.buildRequest "GET" ("/api/subscriptions/" ++ subscription_id) none)
            = ⟨404, bod⟩) :
    c.getSubscription backend subscription_id
      = Except.error (SdkError.httpError 404 bod) := by
  unfold FlowCatalystClient.getSubscription FlowCatalystClient.request raiseForStatus
  rw [hb]
  have hc : 400 ≤ 404 ∧ 404 < 600 := by omega
  simp [hc]

/-- C6 witness: a concrete client and a backend answering 404. -/
theorem c6_getSubscription_404_witness :
    FlowCatalystClient.getSubscription (FlowCatalystClient.initDefault "http://h")
        (fun _ => ⟨404, Json.str "not found"⟩) "sub1"
      = Except.error (SdkError.httpError 404 (Json.str "not found")) :=
  c6_getSubscription_404 _ _ "sub1" _ rfl

/-- C7: the URL of every issued request is the configured base URL with
its trailing slashes stripped (at construction: `base_url` itself is the
stripped string) concatenated with the path; appending a trailing slash
to the base URL makes no difference; each request carries the configured
timeout, which is 30 when constructed with Python's defaults. -/
theorem c7_url_and_timeout :
    (∀ (base_url : String) (api_key : Option String) (timeout : Nat)
       (method path : String) (body : Option Json),
       ((FlowCatalystClient.init base_url api_key timeout).buildRequest
           method path body).url = pyRstripSlash base_url ++ path) ∧
    (∀ (base_url : String) (api_key : Option String) (timeout : Nat),
       (FlowCatalystClient.init base_url api_key timeout).base_url
         = pyRstripSlash base_url) ∧
    (∀ base_url : String, pyRstripSlash (base_url ++ "/") = pyRstripSlash base_url) ∧
    (∀ (base_url : String) (api_key : Option String) (timeout : Nat)
       (method path : String) (body : Option Json),
       ((FlowCatalystClient.init base_url api_key timeout).buildRequest
           method path body).timeout = timeout) ∧
    (∀ base_url : String, (FlowCatalystClient.initDefault base_url).timeout = 30) :=
  ⟨fun _ _ _ _ _ _ => rfl, fun _ _ _ => rfl,
   fun base_url => by
     unfold pyRstripSlash rstripSlashChars
     congr 1
     have hd : (base_url ++ "/").data = base_url.data ++ ['/'] := by
       rfl
     rw [hd, List.reverse_append]
     simp [List.dropWhile],
   fun _ _ _ _ _ _ => rfl, fun _ => rfl⟩

/-- C5, counterexample: the claim says a supplied API key always yields an
`Authorization` header, but `__init__` guards the header with Python's
`if api_key:`, which is false for the empty string.  A client constructed
with the (supplied) key `""` sends requests with no headers at all. -/
theorem c5_empty_key_no_header :
    (FlowCatalystClient.init "http://h" (some "") 30).api_key = some "" ∧
    ((FlowCatalystClient.init "http://h" (some "") 30).buildRequest
        "GET" "/api/event-types" none).headers = [] :=
  ⟨rfl, rfl⟩

/-- C5, amended: if a non-empty API key is supplied at construction, every
request built over the client's session carries exactly the single header
`Authorization: Bearer <api_key>`, installed once at session setup; if no
key — or the empty-string key, which Python's `if api_key:` treats as
absent — is supplied, no header is sent. -/
theorem c5_bearer_header :
    (∀ (base_url k : String) (timeout : Nat) (method path : String) (body : Option Json),
       k ≠ "" →
       ((FlowCatalystClient.init base_url (some k) timeout).buildRequest
           method path body).headers = [("Authorization", "Bearer " ++ k)]) ∧
    (∀ (base_url : String) (timeout : Nat) (method path : String) (body : Option Json),
       ((FlowCatalystClient.init base_url none timeout).buildRequest
           method path body).headers = []) ∧
    (∀ (base_url : String) (timeout : Nat) (method path : String) (body : Option Json),
       ((FlowCatalystClient.init base_url (some "") timeout).buildRequest
           method path body).headers = []) := by
  refine ⟨?_, fun _ _ _ _ _ => rfl, fun _ _ _ _ _ => rfl⟩
  intro base_url k timeout method path body hk
  simp [FlowCatalystClient.init, FlowCatalystClient.buildRequest, hk]

/-- C5 witness: the amended theorem at the key `"k1"` and at no key. -/
theorem c5_bearer_header_witness :
    ((FlowCatalystClient.init "http://h" (some "k1") 30).buildRequest
        "GET" "/api/subscriptions" none).headers = [("Authorization", "Bearer k1")] ∧
    ((FlowCatalystClient.init "http://h" none 30).buildRequest
        "GET" "/api/subscriptions" none).headers = [] :=
  ⟨c5_bearer_header.1 "http://h" "k1" 30 "GET" "/api/subscriptions" none (by decide),
   c5_bearer_header.2.1 "http://h" 30 "GET" "/api/subscriptions" none⟩

/-- C3: `create_subscription` called with the status argument omitted posts
to `/api/subscriptions` a body whose `status` entry is `"active"` (next to
the given event type reference and endpoint), and returns the Subscription
record constructed from the response body. -/
theorem c3_createSubscription_default_active (c : FlowCatalystClient)
    (backend : Backend) (event_type_id endpoint : String) (j : Json)
    (hb : backend (c.buildRequest "POST" "/api/subscriptions"
            (some (createSubscriptionPayload event_type_id endpoint "active")))
          = ⟨201, j⟩) :
    (c.buildRequest "POST" "/api/subscriptions"
        (some (createSubscriptionPayload event_type_id endpoint "active"))).body
      = some (Json.obj [("event_type_id", Json.str event_type_id),
                        ("endpoint", Json.str endpoint),
                        ("status", Json.str "active")]) ∧
    c.createSubscriptionDefault backend event_type_id endpoint = parseSubscription j := by
  refine ⟨rfl, ?_⟩
  unfold FlowCatalystClient.createSubscriptionDefault FlowCatalystClient.createSubscription
    FlowCatalystClient.request raiseForStatus
  rw [hb]
  have hc : ¬(400 ≤ 201 ∧ 201 < 600) := by omega
  simp [hc]

/-- C3 witness: a mocked backend answering 201 with a Subscription body;
the call returns that record with status `"active"`. -/
theorem c3_createSubscription_default_active_witness :
    ((FlowCatalystClient.initDefault "http://h").buildRequest "POST" "/api/subscriptions"
        (some (createSubscriptionPayload "et1" "https://x/y" "active"))).body
      = some (Json.obj [("event_type_id", Json.str "et1"),
                        ("endpoint", Json.str "https://x/y"),
                        ("status", Json.str "active")]) ∧
    FlowCatalystClient.createSubscriptionDefault (FlowCatalystClient.initDefault "http://h")
        (fun _ => ⟨201, Json.obj [("id", Json.str "sub1"),
                                  ("event_type_id", Json.str "et1"),
                                  ("endpoint", Json.str "https://x/y"),
                                  ("status", Json.str "active"),
                                  ("created_at", Json.str "2024-01-01T00:00:00Z")]⟩)
        "et1" "https://x/y"
      = parseSubscription (Json.obj [("id", Json.str "sub1"),
                                     ("event_type_id", Json.str "et1"),
                                     ("endpoint", Json.str "https://x/y"),
                                     ("status", Json.str "active"),
                                     ("created_at", Json.str "2024-01-01T00:00:00Z")]) :=
  c3_createSubscription_default_active _ _ "et1" "https://x/y" _ rfl

/-- C8: constructing an `EventType` from a JSON object round-trips every
field unchanged: whenever construction succeeds the record's fields are
exactly the object's `id`, `name`, `version`, `schema` and `created_at`
values, and conversely every object of the declared shape constructs
successfully into precisely those field values. -/
theorem c8_eventType_roundtrip :
    (∀ (f : List (String × Json)) (et : EventType),
       parseEventType (Json.obj f) = Except.ok et →
       lookupField f "id" = some (Json.str et.id) ∧
       lookupField f "name" = some (Json.str et.name) ∧
       lookupField f "version" = some (Json.str et.version) ∧
       lookupField f "schema" = some (Json.obj et.schema) ∧
       lookupField f "created_at" = some et.created_at.raw) ∧
    (∀ (i n v : String) (sc : List (String × Json)) (ca : String),
       parseEventType (Json.obj [("id", Json.str i), ("name", Json.str n),
           ("version", Json.str v), ("schema", Json.obj sc),
           ("created_at", Json.str ca)])
         = Except.ok ⟨i, n, v, sc, ⟨Json.str ca⟩⟩) := by
  constructor
  · intro f et h
    simp only [parseEventType] at h
    cases hp : parseEventTypeFields f with
    | error m => rw [hp] at h; simp at h
    | ok r =>
        rw [hp] at h
        simp at h
        subst h
        exact parseEventTypeFields_ok hp
  · intro i n v sc ca
    rfl

/-- C8 witness: the round-trip direction applied to a concrete EventType
object. -/
theorem c8_eventType_roundtrip_witness :
    lookupField [("id", Json.str "et1"), ("name", Json.str "order.created"),
        ("version", Json.str "1"), ("schema", Json.obj [("type", Json.str "object")]),
        ("created_at", Json.str "2024-01-01T00:00:00Z")] "id"
      = some (Json.str "et1") ∧
    lookupField [("id", Json.str "et1"), ("name", Json.str "order.created"),
        ("version", Json.str "1"), ("schema", Json.obj [("type", Json.str "object")]),
        ("created_at", Json.str "2024-01-01T00:00:00Z")] "created_at"
      = some (Json.str "2024-01-01T00:00:00Z") :=
  have h := c8_eventType_roundtrip.1
    [("id", Json.str "et1"), ("name", Json.str "order.created"),
     ("version", Json.str "1"), ("schema", Json.obj [("type", Json.str "object")]),
     ("created_at", Json.str "2024-01-01T00:00:00Z")]
    ⟨"et1", "order.created", "1", [("type", Json.str "object")],
     ⟨Json.str "2024-01-01T00:00:00Z"⟩⟩ rfl
  ⟨h.1, h.2.2.2.2⟩

/-- C2: constructing a Subscription fails with a `ValidationError` when the
server data has a status value outside {active, paused, failed} (such as
`"cancelled"`), a wrong-typed status, a missing required field, or a
wrong-typed string field. -/
theorem c2_subscription_invalid_fails :
    (∀ (f : List (String × Json)) (s : String),
       lookupField f "status" = some (Json.str s) → s ∉ subscriptionStatuses →
       resultIsValidationError (parseSubscription (Json.obj f)) = true) ∧
    (∀ (f : List (String × Json)) (v : Json),
       lookupField f "status" = some v → (∀ s, v ≠ Json.str s) →
       resultIsValidationError (parseSubscription (Json.obj f)) = true) ∧
    (∀ (f : List (String × Json)) (k : String),
       k ∈ ["id", "event_type_id", "endpoint", "status", "created_at"] →
       lookupField f k = none →
       resultIsValidationError (parseSubscription (Json.obj f)) = true) ∧
    (∀ (f : List (String × Json)) (k : String) (n : Int),
       k ∈ ["id", "event_type_id", "endpoint"] →
       lookupField f k = some (Json.num n) →
       resultIsValidationError (parseSubscription (Json.obj f)) = true) := by
  have key : ∀ f : List (String × Json),
      (∀ sub, parseSubscriptionFields f ≠ Except.ok sub) →
      resultIsValidationError (parseSubscription (Json.obj f)) = true := by
    intro f hno
    obtain ⟨m, hm⟩ := parseSubscription_error_of_no_ok hno
    rw [hm]
    rfl
  refine ⟨?_, ?_, ?_, ?_⟩
  · intro f s hlk hnot
    apply key
    intro sub hp
    obtain ⟨-, -, -, hst, hmem, -⟩ := parseSubscriptionFields_ok hp
    rw [hlk] at hst
    simp at hst
    subst hst
    exact hnot hmem
  · intro f v hlk hv
    apply key
    intro sub hp
    obtain ⟨-, -, -, hst, -, -⟩ := parseSubscriptionFields_ok hp
    rw [hlk] at hst
    simp at hst
    exact hv sub.status hst
  · intro f k hk hnone
    apply key
    intro sub hp
    obtain ⟨hid, het, hep, hst, -, hca⟩ := parseSubscriptionFields_ok hp
    simp only [List.mem_cons, List.mem_singleton, List.not_mem_nil, or_false] at hk
    rcases hk with rfl | rfl | rfl | rfl | rfl
    · rw [hnone] at hid; cases hid
    · rw [hnone] at het; cases het
    · rw [hnone] at hep; cases hep
    · rw [hnone] at hst; cases hst
    · rw [hnone] at hca; cases hca
  · intro f k n hk hnum
    apply key
    intro sub hp
    obtain ⟨hid, het, hep, -, -, -⟩ := parseSubscriptionFields_ok hp
    simp only [List.mem_cons, List.mem_singleton, List.not_mem_nil, or_false] at hk
    rcases hk with rfl | rfl | rfl
    · rw [hnum] at hid; cases hid
    · rw [hnum] at het; cases het
    · rw [hnum] at hep; cases hep

/-- C2 witness: the spec's own example — `status="cancelled"` on otherwise
well-shaped data — fails with a `ValidationError`, as does a missing `id`. -/
theorem c2_subscription_invalid_fails_witness :
    resultIsValidationError (parseSubscription (Json.obj
        [("id", Json.str "sub1"), ("event_type_id", Json.str "et1"),
         ("endpoint", Json.str "https://x/y"), ("status", Json.str "cancelled"),
         ("created_at", Json.str "2024-01-01T00:00:00Z")])) = true ∧
    resultIsValidationError (parseSubscription (Json.obj [])) = true :=
  ⟨c2_subscription_invalid_fails.1
      [("id", Json.str "sub1"), ("event_type_id", Json.str "et1"),
       ("endpoint", Json.str "https://x/y"), ("status", Json.str "cancelled"),
       ("created_at", Json.str "2024-01-01T00:00:00Z")]
      "cancelled" rfl (by decide),
   c2_subscription_invalid_fails.2.2.1 [] "id" (by simp) rfl⟩

/-- C4: for every JSON array answered with a 2xx status for
`GET /api/dispatch-jobs` whose elements all validate, `get_dispatch_jobs`
returns exactly one `DispatchJob` per array element, in the array's order:
the result has the array's length and its `i`-th record is constructed
from the array's `i`-th element. -/
theorem c4_getDispatchJobs_order (c : FlowCatalystClient) (backend : Backend)
    (s : Nat) (xs : List Json) (jobs : List DispatchJob)
    (h1 : 200 ≤ s) (h2 : s < 300)
    (hb : backend (c.buildRequest "GET" "/api/dispatch-jobs" none) = ⟨s, Json.arr xs⟩)
    (hparse : xs.mapM parseDispatchJob = Except.ok jobs) :
    c.getDispatchJobs backend = Except.ok jobs ∧
    jobs.length = xs.length ∧
    ∀ i (h : i < xs.length) (h2 : i < jobs.length),
      parseDispatchJob (xs.get ⟨i, h⟩) = Except.ok (jobs.get ⟨i, h2⟩) := by
  have hok : c.getDispatchJobs backend = Except.ok jobs := by
    unfold FlowCatalystClient.getDispatchJobs FlowCatalystClient.request raiseForStatus
    rw [hb]
    have hc : ¬(400 ≤ s ∧ s < 600) := by omega
    simp [hc]
    exact hparse
  obtain ⟨hlen, hpt⟩ := mapM_ok_spec hparse
  exact ⟨hok, hlen, hpt⟩

/-- The 3-element DispatchJob array a mocked backend returns. -/
def sampleJobsJson : List Json :=
  [Json.obj [("id", Json.str "j1"), ("event_id", Json.str "e1"),
     ("subscription_id", Json.str "s1"), ("status", Json.str "pending"),
     ("attempts", Json.num 0), ("created_at", Json.str "t1")],
   Json.obj [("id", Json.str "j2"), ("event_id", Json.str "e2"),
     ("subscription_id", Json.str "s2"), ("status", Json.str "processing"),
     ("attempts", Json.num 1), ("created_at", Json.str "t2")],
   Json.obj [("id", Json.str "j3"), ("event_id", Json.str "e3"),
     ("subscription_id", Json.str "s3"), ("status", Json.str "completed"),
     ("attempts", Json.num 2), ("created_at", Json.str "t3"),
     ("completed_at", Json.str "t4")]]

/-- The records those three elements construct, in order. -/
def sampleJobs : List DispatchJob :=
  [⟨"j1", "e1", "s1", "pending", 0, ⟨Json.str "t1"⟩, none⟩,
   ⟨"j2", "e2", "s2", "processing", 1, ⟨Json.str "t2"⟩, none⟩,
   ⟨"j3", "e3", "s3", "completed", 2, ⟨Json.str "t3"⟩, some ⟨Json.str "t4"⟩⟩]

/-- C4 witness: a mocked backend answering a 3-element array yields exactly
those 3 records in order. -/
theorem c4_getDispatchJobs_order_witness :
    FlowCatalystClient.getDispatchJobs (FlowCatalystClient.initDefault "http://h")
        (fun _ => ⟨200, Json.arr sampleJobsJson⟩)
      = Except.ok sampleJobs ∧
    sampleJobs.length = sampleJobsJson.length :=
  have h := c4_getDispatchJobs_order (FlowCatalystClient.initDefault "http://h")
    (fun _ => ⟨200, Json.arr sampleJobsJson⟩) 200 sampleJobsJson sampleJobs
    (by omega) (by omega) rfl rfl
  ⟨h.1, h.2.1⟩

/-- Server data for a job that is still `pending` yet carries a completion
timestamp — the record types accept it. -/
def pendingCompletedFields : List (String × Json) :=
  [("id", Json.str "j1"), ("event_id", Json.str "e1"),
   ("subscription_id", Json.str "s1"), ("status", Json.str "pending"),
   ("attempts", Json.num 0), ("created_at", Json.str "2024-01-01T00:00:00Z"),
   ("completed_at", Json.str "2024-01-02T00:00:00Z")]

/-- The record `pendingCompletedFields` constructs. -/
def pendingCompletedJob : DispatchJob :=
  ⟨"j1", "e1", "s1", "pending", 0, ⟨Json.str "2024-01-01T00:00:00Z"⟩,
   some ⟨Json.str "2024-01-02T00:00:00Z"⟩⟩

/-- C9, counterexample: a `DispatchJob` with the non-terminal status
`"pending"` and a present `completed_at` is obtainable through the public
interface — `get_dispatch_job` happily returns it, since neither the
client nor the record validation relates `completed_at` to `status`. -/
theorem c9_pending_with_completed_at :
    FlowCatalystClient.getDispatchJob (FlowCatalystClient.initDefault "http://h")
        (fun _ => ⟨200, Json.obj pendingCompletedFields⟩) "j1"
      = Except.ok pendingCompletedJob ∧
    pendingCompletedJob.status = "pending" ∧
    pendingCompletedJob.completed_at.isSome = true :=
  ⟨rfl, rfl, rfl⟩

/-- C9, amended: `completed_at` is optional and determined solely by the
server's `completed_at` field — absent exactly when the field is missing
or `null`, and present with the sent value otherwise — independent of
whether `status` is terminal; no cross-field constraint is enforced. -/
theorem c9_completed_at_independent (f : List (String × Json)) (job : DispatchJob)
    (h : parseDispatchJob (Json.obj f) = Except.ok job) :
    (lookupField f "completed_at" = none → job.completed_at = none) ∧
    (lookupField f "completed_at" = some Json.null → job.completed_at = none) ∧
    (∀ v, lookupField f "completed_at" = some v → v ≠ Json.null →
       job.completed_at = some ⟨v⟩) := by
  simp only [parseDispatchJob] at h
  cases hp : parseDispatchJobFields f with
  | error m => rw [hp] at h; simp at h
  | ok r =>
  rw [hp] at h
  simp at h
  subst h
  obtain ⟨-, -, -, -, -, -, -, hopt⟩ := parseDispatchJobFields_ok hp
  refine ⟨?_, ?_, ?_⟩
  · intro hnone
    rcases hopt with ⟨hc, -⟩ | ⟨v, hv, -, -⟩
    · exact hc
    · rw [hnone] at hv; cases hv
  · intro hnull
    rcases hopt with ⟨hc, -⟩ | ⟨v, hv, hvn, -⟩
    · exact hc
    · rw [hnull] at hv
      injection hv with hv2
      exact absurd hv2.symm hvn
  · intro v hv hvn
    rcases hopt with ⟨-, hor⟩ | ⟨w, hw, -, hcw⟩
    · rcases hor with h1 | h1
      · rw [hv] at h1; cases h1
      · rw [hv] at h1
        injection h1 with h2
        exact absurd h2 hvn
    · rw [hv] at hw
      injection hw with hw2
      rw [← hw2] at hcw
      exact hcw

/-- C9 witness: the amended theorem applied to the pending-but-completed
record. -/
theorem c9_completed_at_independent_witness :
    pendingCompletedJob.completed_at = some ⟨Json.str "2024-01-02T00:00:00Z"⟩ :=
  (c9_completed_at_independent pendingCompletedFields pendingCompletedJob rfl).2.2
    (Json.str "2024-01-02T00:00:00Z") rfl (fun hcon => Json.noConfusion hcon)

/-- C10: for each list operation, if the backend answers 2xx with a JSON
array of objects of which some element fails record validation, the whole
call fails with a `ValidationError` — it does not return a partial
sequence of the valid elements. -/
theorem c10_list_ops_fail_whole :
    (∀ (c : FlowCatalystClient) (backend : Backend) (s : Nat) (xs : List Json),
       200 ≤ s → s < 300 →
       backend (c.buildRequest "GET" "/api/event-types" none) = ⟨s, Json.arr xs⟩ →
       (∀ x ∈ xs, ∃ g, x = Json.obj g) →
       (∃ x ∈ xs, ∃ e, parseEventType x = Except.error e) →
       resultIsValidationError (c.getEventTypes backend) = true) ∧
    (∀ (c : FlowCatalystClient) (backend : Backend) (s : Nat) (xs : List Json),
       200 ≤ s → s < 300 →
       backend (c.buildRequest "GET" "/api/subscriptions" none) = ⟨s, Json.arr xs⟩ →
       (∀ x ∈ xs, ∃ g, x = Json.obj g) →
       (∃ x ∈ xs, ∃ e, parseSubscription x = Except.error e) →
       resultIsValidationError (c.getSubscriptions backend) = true) ∧
    (∀ (c : FlowCatalystClient) (backend : Backend) (s : Nat) (xs : List Json),
       200 ≤ s → s < 300 →
       backend (c.buildRequest "GET" "/api/dispatch-jobs" none) = ⟨s, Json.arr xs⟩ →
       (∀ x ∈ xs, ∃ g, x = Json.obj g) →
       (∃ x ∈ xs, ∃ e, parseDispatchJob x = Except.error e) →
       resultIsValidationError (c.getDispatchJobs backend) = true) := by
  refine ⟨?_, ?_, ?_⟩
  · intro c backend s xs h1 h2 hb hobj hbad
    obtain ⟨m, hm⟩ :=
      mapM_error_validation (fun g e he => parseEventType_obj_error he) hobj hbad
    unfold FlowCatalystClient.getEventTypes FlowCatalystClient.request raiseForStatus
    rw [hb]
    have hc : ¬(400 ≤ s ∧ s < 600) := by omega
    simp [hc]
    have hm2 : List.mapM.loop parseEventType xs [] = Except.error (SdkError.validationError m) := hm
    rw [hm2]
    rfl
  · intro c backend s xs h1 h2 hb hobj hbad
    obtain ⟨m, hm⟩ :=
      mapM_error_validation (fun g e he => parseSubscription_obj_error he) hobj hbad
    unfold FlowCatalystClient.getSubscriptions FlowCatalystClient.request raiseForStatus
    rw [hb]
    have hc : ¬(400 ≤ s ∧ s < 600) := by omega
    simp [hc]
    have hm2 : List.mapM.loop parseSubscription xs [] = Except.error (SdkError.validationError m) := hm
    rw [hm2]
    rfl
  · intro c backend s xs h1 h2 hb hobj hbad
    obtain ⟨m, hm⟩ :=
      mapM_error_validation (fun g e he => parseDispatchJob_obj_error he) hobj hbad
    unfold FlowCatalystClient.getDispatchJobs FlowCatalystClient.request raiseForStatus
    rw [hb]
    have hc : ¬(400 ≤ s ∧ s < 600) := by omega
    simp [hc]
    have hm2 : List.mapM.loop parseDispatchJob xs [] = Except.error (SdkError.validationError m) := hm
    rw [hm2]
    rfl

/-- C10 witness: each list operation on a 2-element array whose second
element is the empty object (missing every required field) fails with a
`ValidationError`. -/
theorem c10_list_ops_fail_whole_witness :
    resultIsValidationError (FlowCatalystClient.getEventTypes
        (FlowCatalystClient.initDefault "http://h")
        (fun _ => ⟨200, Json.arr [Json.obj [("id", Json.str "et1"),
            ("name", Json.str "n"), ("version", Json.str "1"),
            ("schema", Json.obj []), ("created_at", Json.str "t")],
          Json.obj []]⟩)) = true ∧
    resultIsValidationError (FlowCatalystClient.getSubscriptions
        (FlowCatalystClient.initDefault "http://h")
        (fun _ => ⟨200, Json.arr [Json.obj []]⟩)) = true ∧
    resultIsValidationError (FlowCatalystClient.getDispatchJobs
        (FlowCatalystClient.initDefault "http://h")
        (fun _ => ⟨200, Json.arr [Json.obj []]⟩)) = true := by
  refine ⟨?_, ?_, ?_⟩
  · exact c10_list_ops_fail_whole.1 _ _ 200
      [Json.obj [("id", Json.str "et1"), ("name", Json.str "n"),
         ("version", Json.str "1"), ("schema", Json.obj []),
         ("created_at", Json.str "t")], Json.obj []]
      (by omega) (by omega) rfl
      (by intro x hx; simp at hx; rcases hx with rfl | rfl
          · exact ⟨_, rfl⟩
          · exact ⟨_, rfl⟩)
      ⟨Json.obj [], by simp, SdkError.validationError "id: field required", rfl⟩
  · exact c10_list_ops_fail_whole.2.1 _ _ 200 [Json.obj []]
      (by omega) (by omega) rfl
      (by intro x hx; simp at hx; subst hx; exact ⟨_, rfl⟩)
      ⟨Json.obj [], by simp, SdkError.validationError "id: field required", rfl⟩
  · exact c10_list_ops_fail_whole.2.2 _ _ 200 [Json.obj []]
      (by omega) (by omega) rfl
      (by intro x hx; simp at hx; subst hx; exact ⟨_, rfl⟩)
      ⟨Json.obj [], by simp, SdkError.validationError "id: field required", rfl⟩

end FlowCatalyst
